import Mathlib

/-!
Shallow embedding of the CRUD slices of the repository (posts / products):
untrusted form values, the zod validation schemas, the repository layer
(raw SQL over two tables, modelled as pure functions on lists of rows),
the server actions (modelled as trace-producing functions), and the
list-rendering components.
-/

namespace Practice

/-- Untrusted JavaScript values as they arrive in the raw-data objects the
actions build from `FormData`: strings, finite numbers, `NaN`, `null`. -/
inductive Value where
  | vStr (s : String)
  | vNum (q : ℚ)
  | vNan
  | vNull
deriving DecidableEq, Repr

/-- Equality of `Except` results is decidable when both component types
have decidable equality (used to evaluate parses on concrete inputs). -/
instance exceptDecEq {ε α : Type} [DecidableEq ε] [DecidableEq α] :
    DecidableEq (Except ε α) := fun a b =>
  match a, b with
  | .ok x, .ok y =>
      if h : x = y then .isTrue (by rw [h])
      else .isFalse (by intro hh; cases hh; exact h rfl)
  | .error x, .error y =>
      if h : x = y then .isTrue (by rw [h])
      else .isFalse (by intro hh; cases hh; exact h rfl)
  | .ok _, .error _ => .isFalse (by intro hh; cases hh)
  | .error _, .ok _ => .isFalse (by intro hh; cases hh)

/-- Numeric value of a list of decimal digit characters. -/
def digitsToNat (ds : List Char) : Nat :=
  ds.foldl (fun a c => a * 10 + (c.toNat - 48)) 0

/-- Radix-10 digit-prefix step of JS `parseInt`. -/
def jsParseIntDigits (sign : Int) (cs : List Char) : Value :=
  let ds := cs.takeWhile Char.isDigit
  if ds.isEmpty then .vNan else .vNum ((sign * (digitsToNat ds : Int) : Int) : ℚ)

/-- JS `parseInt` (radix 10): skip leading whitespace, optional sign, then the
longest decimal-digit prefix; `NaN` when there is none. -/
def jsParseInt (s : String) : Value :=
  match s.data.dropWhile Char.isWhitespace with
  | '-' :: cs => jsParseIntDigits (-1) cs
  | '+' :: cs => jsParseIntDigits 1 cs
  | cs => jsParseIntDigits 1 cs

/-- Digit-prefix step of JS `parseFloat`: integer digits, then an optional
fractional part after a decimal point. -/
def jsParseFloatDigits (sign : ℚ) (cs : List Char) : Value :=
  let intDs := cs.takeWhile Char.isDigit
  let rest := cs.drop intDs.length
  let fracDs :=
    match rest with
    | '.' :: cs2 => cs2.takeWhile Char.isDigit
    | _ => []
  if intDs.isEmpty && fracDs.isEmpty then .vNan
  else .vNum (sign * ((digitsToNat intDs : ℚ) + (digitsToNat fracDs : ℚ) / ((10 : ℚ) ^ fracDs.length)))

/-- JS `parseFloat` (decimal notation): skip leading whitespace, optional sign,
integer digits and optional fraction; `NaN` when no digit is found. -/
def jsParseFloat (s : String) : Value :=
  match s.data.dropWhile Char.isWhitespace with
  | '-' :: cs => jsParseFloatDigits (-1) cs
  | '+' :: cs => jsParseFloatDigits 1 cs
  | cs => jsParseFloatDigits 1 cs

/-- A submitted form: `FormData.get` returns the field's string or `null`. -/
def FormData : Type := String → Option String

/-- `formData.get(k) as string`: the string itself, or the `null` value. -/
def fdGetString (fd : FormData) (k : String) : Value :=
  match fd k with
  | some s => .vStr s
  | none => .vNull

/-- `parseInt(formData.get(k) as string)`: a missing field gives
`parseInt(null)`, which coerces to the string "null" and yields `NaN`. -/
def fdGetParseInt (fd : FormData) (k : String) : Value :=
  match fd k with
  | some s => jsParseInt s
  | none => .vNan

/-- `parseFloat(formData.get(k) as string)`; `parseFloat(null)` is `NaN`. -/
def fdGetParseFloat (fd : FormData) (k : String) : Value :=
  match fd k with
  | some s => jsParseFloat s
  | none => .vNan

/-- The Prisma `PostCategory` enum (`Tech`, `Life`, `General`). -/
inductive PostCategory where
  | Tech
  | Life
  | General
deriving DecidableEq, Repr

/-- The string values of the `PostCategory` enum, as `z.nativeEnum` sees them. -/
def PostCategory.fromString : String → Option PostCategory :=
  fun s =>
    if s = "Tech" then some .Tech
    else if s = "Life" then some .Life
    else if s = "General" then some .General
    else none

/-- The Prisma `ProductCategory` enum used by the product forms. -/
inductive ProductCategory where
  | Electronics
  | Clothing
  | Books
  | Home
  | Sports
deriving DecidableEq, Repr

/-- The string values of the `ProductCategory` enum. -/
def ProductCategory.fromString : String → Option ProductCategory :=
  fun s =>
    if s = "Electronics" then some .Electronics
    else if s = "Clothing" then some .Clothing
    else if s = "Books" then some .Books
    else if s = "Home" then some .Home
    else if s = "Sports" then some .Sports
    else none

/-- `z.string().min(mn).max(mx)`: a string whose length lies in `[mn, mx]`. -/
def zStringBetween (mn mx : Nat) : Value → Option String
  | .vStr s => if mn ≤ s.length ∧ s.length ≤ mx then some s else none
  | _ => none

/-- `z.number().int().positive()`: a positive integral number. -/
def zNumberIntPositive : Value → Option Int
  | .vNum q => if q.den = 1 ∧ 0 < q then some q.num else none
  | _ => none

/-- `z.number().positive()`: a positive number. -/
def zNumberPositive : Value → Option ℚ
  | .vNum q => if 0 < q then some q else none
  | _ => none

/-- `z.number().int().min(mn)`: an integral number that is at least `mn`. -/
def zNumberIntMin (mn : Int) : Value → Option Int
  | .vNum q => if q.den = 1 ∧ mn ≤ q.num then some q.num else none
  | _ => none

/-- `z.number().min(mn)`: a number that is at least `mn`. -/
def zNumberMin (mn : ℚ) : Value → Option ℚ
  | .vNum q => if mn ≤ q then some q else none
  | _ => none

/-- `z.nativeEnum(PostCategory)`. -/
def zNativeEnumPostCategory : Value → Option PostCategory
  | .vStr s => PostCategory.fromString s
  | _ => none

/-- `z.nativeEnum(ProductCategory)`. -/
def zNativeEnumProductCategory : Value → Option ProductCategory
  | .vStr s => ProductCategory.fromString s
  | _ => none

/-- Names the field when its check failed; zod reports one issue per field,
carrying the field's path. -/
def fieldErr {α : Type} (n : String) : Option α → List String
  | some _ => []
  | none => [n]

/-! Validated input types (`z.infer` of the schemas). -/

/-- `CreatePostInput` from `t1-create/post/_schema/post.ts`. -/
structure CreatePostInput where
  title : String
  body : String
  category : PostCategory
  authorId : Int
deriving DecidableEq, Repr

/-- `UpdatePostInput` from `t4-update/post/_schema/post.ts`. -/
structure UpdatePostInput where
  id : Int
  title : String
  body : String
  category : PostCategory
  authorId : Int
deriving DecidableEq, Repr

/-- `CreateProductInput` from `t1-create/product/_schema/product.ts`. -/
structure CreateProductInput where
  name : String
  category : ProductCategory
  price : ℚ
  stock : Int
deriving DecidableEq, Repr

/-- `UpdateProductInput` from the product update schema. -/
structure UpdateProductInput where
  id : Int
  name : String
  category : ProductCategory
  price : ℚ
  stock : Int
deriving DecidableEq, Repr

/-- `DeletePostInput` / `DeleteProductInput`: a single `id` field. -/
structure DeleteIdInput where
  id : Int
deriving DecidableEq, Repr

/-! Raw-data objects as the actions assemble them, field by field. -/

/-- Raw data for `createPostAction`: `title`, `body`, `category`, `authorId`. -/
structure RawCreatePost where
  title : Value
  body : Value
  category : Value
  authorId : Value
deriving DecidableEq, Repr

/-- Raw data for `updatePostAction`: `id` plus the create-post fields. -/
structure RawUpdatePost where
  id : Value
  title : Value
  body : Value
  category : Value
  authorId : Value
deriving DecidableEq, Repr

/-- Raw data for `createProductAction`: `name`, `category`, `price`, `stock`. -/
structure RawCreateProduct where
  name : Value
  category : Value
  price : Value
  stock : Value
deriving DecidableEq, Repr

/-- Raw data for `updateProductAction`: `id` plus the create-product fields. -/
structure RawUpdateProduct where
  id : Value
  name : Value
  category : Value
  price : Value
  stock : Value
deriving DecidableEq, Repr

/-- Raw data for the delete actions: a single parsed `id`. -/
structure RawDeleteInput where
  id : Value
deriving DecidableEq, Repr

/-! The schema `.parse` calls.  Success returns the typed input; failure
returns the list of field names carried by the thrown `ZodError`'s issues
(zod checks every field and reports all failures). -/

/-- `createPostSchema.parse`: title 1..100, body 1..5000, category a
`PostCategory` value, authorId a positive integer. -/
def createPostSchemaParse (r : RawCreatePost) : Except (List String) CreatePostInput :=
  match zStringBetween 1 100 r.title, zStringBetween 1 5000 r.body,
      zNativeEnumPostCategory r.category, zNumberIntPositive r.authorId with
  | some t, some b, some c, some a => .ok ⟨t, b, c, a⟩
  | ot, ob, oc, oa =>
      .error (fieldErr "title" ot ++ fieldErr "body" ob ++
        fieldErr "category" oc ++ fieldErr "authorId" oa)

/-- `updatePostSchema.parse`: id a positive integer, then the same field
rules as `createPostSchema`. -/
def updatePostSchemaParse (r : RawUpdatePost) : Except (List String) UpdatePostInput :=
  match zNumberIntPositive r.id, zStringBetween 1 100 r.title,
      zStringBetween 1 5000 r.body, zNativeEnumPostCategory r.category,
      zNumberIntPositive r.authorId with
  | some i, some t, some b, some c, some a => .ok ⟨i, t, b, c, a⟩
  | oi, ot, ob, oc, oa =>
      .error (fieldErr "id" oi ++ fieldErr "title" ot ++ fieldErr "body" ob ++
        fieldErr "category" oc ++ fieldErr "authorId" oa)

/-- `createProductSchema.parse`: name 1..100, category a `ProductCategory`
value, price a positive number, stock a non-negative integer. -/
def createProductSchemaParse (r : RawCreateProduct) : Except (List String) CreateProductInput :=
  match zStringBetween 1 100 r.name, zNativeEnumProductCategory r.category,
      zNumberPositive r.price, zNumberIntMin 0 r.stock with
  | some n, some c, some p, some s => .ok ⟨n, c, p, s⟩
  | nn, cc, pp, ss =>
      .error (fieldErr "name" nn ++ fieldErr "category" cc ++
        fieldErr "price" pp ++ fieldErr "stock" ss)

/-- `updateProductSchema.parse`: id a positive integer, name 1..100,
category a `ProductCategory` value, price at least 0, stock a non-negative
integer. -/
def updateProductSchemaParse (r : RawUpdateProduct) : Except (List String) UpdateProductInput :=
  match zNumberIntPositive r.id, zStringBetween 1 100 r.name,
      zNativeEnumProductCategory r.category, zNumberMin 0 r.price,
      zNumberIntMin 0 r.stock with
  | some i, some n, some c, some p, some s => .ok ⟨i, n, c, p, s⟩
  | ii, nn, cc, pp, ss =>
      .error (fieldErr "id" ii ++ fieldErr "name" nn ++ fieldErr "category" cc ++
        fieldErr "price" pp ++ fieldErr "stock" ss)

/-- `deletePostSchema.parse`: id an integer, positive. -/
def deletePostSchemaParse (r : RawDeleteInput) : Except (List String) DeleteIdInput :=
  match zNumberIntPositive r.id with
  | some i => .ok ⟨i⟩
  | oi => .error (fieldErr "id" oi)

/-- `deleteProductSchema.parse`: id an integer, positive. -/
def deleteProductSchemaParse (r : RawDeleteInput) : Except (List String) DeleteIdInput :=
  match zNumberIntPositive r.id with
  | some i => .ok ⟨i⟩
  | oi => .error (fieldErr "id" oi)

/-! Database rows and DTOs. -/

/-- A row of the `posts` table (the `Post` DTO); `createdAt` is a timestamp. -/
structure PostRow where
  id : Int
  title : String
  body : String
  category : PostCategory
  authorId : Int
  createdAt : Nat
deriving DecidableEq, Repr

/-- `PostListItem`: the projection `id, title, createdAt` of a post row. -/
structure PostListItem where
  id : Int
  title : String
  createdAt : Nat
deriving DecidableEq, Repr

/-- The `SELECT id, title, created_at` projection of a post row. -/
def PostRow.toListItem (r : PostRow) : PostListItem :=
  ⟨r.id, r.title, r.createdAt⟩

/-- A row of the `products` table (the `Product` DTO). -/
structure ProductRow where
  id : Int
  name : String
  category : ProductCategory
  price : ℚ
  stock : Int
  createdAt : Nat
deriving DecidableEq, Repr

/-- `ProductListItem`: the projection `id, name, createdAt` of a product row. -/
structure ProductListItem where
  id : Int
  name : String
  createdAt : Nat
deriving DecidableEq, Repr

/-- The `SELECT id, name, created_at` projection of a product row. -/
def ProductRow.toListItem (r : ProductRow) : ProductListItem :=
  ⟨r.id, r.name, r.createdAt⟩

/-! Repository layer: each function issues one raw SQL statement, modelled
here by its relational semantics over the table's list of rows. -/

/-- `getPostList`: `SELECT id, title, created_at FROM "posts" ORDER BY
created_at DESC` and return the rows. -/
def getPostList (db : List PostRow) : List PostListItem :=
  (List.insertionSort (fun a b => b.createdAt ≤ a.createdAt) db).map PostRow.toListItem

/-- `getPostById`: `SELECT ... FROM "posts" WHERE id = $id`, then
`post[0] || null`. -/
def getPostById (db : List PostRow) (i : Int) : Option PostRow :=
  ((db.filter fun r => r.id == i).head?)

/-- `createPost`: `INSERT INTO "posts" (title, body, category, author_id,
created_at) VALUES (..., NOW()) RETURNING ...`, then `post[0]`.  The
database supplies the autoincremented `newId` and the `NOW()` timestamp. -/
def createPost (db : List PostRow) (data : CreatePostInput) (newId : Int) (now : Nat) :
    List PostRow × PostRow :=
  let row : PostRow := ⟨newId, data.title, data.body, data.category, data.authorId, now⟩
  (db ++ [row], row)

/-- `updatePost`: `UPDATE "posts" SET title, body, category, author_id
WHERE id = $id RETURNING ...`, then `post[0]` — `Option` because the
returned row list is empty when no row matches. -/
def updatePost (db : List PostRow) (data : UpdatePostInput) :
    List PostRow × Option PostRow :=
  let setCols := fun (r : PostRow) =>
    { r with title := data.title, body := data.body,
             category := data.category, authorId := data.authorId }
  (db.map fun r => if r.id == data.id then setCols r else r,
   ((db.filter fun r => r.id == data.id).map setCols).head?)

/-- `deletePost`: `DELETE FROM "posts" WHERE id = $id`; returns nothing. -/
def deletePost (db : List PostRow) (data : DeleteIdInput) : List PostRow :=
  db.filter fun r => !(r.id == data.id)

/-- `getProductList`: `SELECT id, name, created_at FROM "products" ORDER BY
created_at DESC`. -/
def getProductList (db : List ProductRow) : List ProductListItem :=
  (List.insertionSort (fun a b => b.createdAt ≤ a.createdAt) db).map ProductRow.toListItem

/-- `getProductById`: `SELECT ... FROM "products" WHERE id = $id`, then
`product[0] || null`. -/
def getProductById (db : List ProductRow) (i : Int) : Option ProductRow :=
  ((db.filter fun r => r.id == i).head?)

/-- `createProduct`: `INSERT INTO "products" (name, category, price, stock,
created_at) VALUES (..., NOW()) RETURNING ...`, then `product[0]`. -/
def createProduct (db : List ProductRow) (data : CreateProductInput) (newId : Int) (now : Nat) :
    List ProductRow × ProductRow :=
  let row : ProductRow := ⟨newId, data.name, data.category, data.price, data.stock, now⟩
  (db ++ [row], row)

/-- `updateProduct`: `UPDATE "products" SET name, category, price, stock
WHERE id = $id RETURNING ...`, then `product[0]`. -/
def updateProduct (db : List ProductRow) (data : UpdateProductInput) :
    List ProductRow × Option ProductRow :=
  let setCols := fun (r : ProductRow) =>
    { r with name := data.name, category := data.category,
             price := data.price, stock := data.stock }
  (db.map fun r => if r.id == data.id then setCols r else r,
   ((db.filter fun r => r.id == data.id).map setCols).head?)

/-- `deleteProduct`: `DELETE FROM "products" WHERE id = $id RETURNING ...`,
then `product[0] || null`. -/
def deleteProduct (db : List ProductRow) (data : DeleteIdInput) :
    List ProductRow × Option ProductRow :=
  (db.filter fun r => !(r.id == data.id),
   (db.filter fun r => r.id == data.id).head?)

/-! Server actions.  Each action decodes the form, runs `.parse`, and on
success performs its one repository call, `revalidateTag`, and `redirect`;
the observable side effects are recorded as an event trace, and a thrown
`ZodError` is recorded in `thrown` (the action has no catch block). -/

/-- An observable side effect of an action, in occurrence order. -/
inductive Event where
  | dbCall (fn : String)
  | revalidate (tag : String)
  | redirectTo (path : String)
deriving DecidableEq, Repr

/-- Result of running an action against a table state: the table after the
action, the side effects in order, and the zod error if one was thrown. -/
structure Outcome (Row : Type) where
  db : List Row
  events : List Event
  thrown : Option (List String)
deriving Repr

/-- The raw-data object `createPostAction` builds from the form. -/
def createPostRawOf (fd : FormData) : RawCreatePost :=
  { title := fdGetString fd "title"
    body := fdGetString fd "body"
    category := fdGetString fd "category"
    authorId := fdGetParseInt fd "authorId" }

/-- `createPostAction`: parse, `createPost`, `revalidateTag("posts")`,
`redirect("/t2-read-list/posts")`. -/
def createPostAction (fd : FormData) (db : List PostRow) (newId : Int) (now : Nat) :
    Outcome PostRow :=
  match createPostSchemaParse (createPostRawOf fd) with
  | .error e => ⟨db, [], some e⟩
  | .ok v =>
      ⟨(createPost db v newId now).1,
       [.dbCall "createPost", .revalidate "posts", .redirectTo "/t2-read-list/posts"],
       none⟩

/-- The raw-data object `updatePostAction` builds from the form. -/
def updatePostRawOf (fd : FormData) : RawUpdatePost :=
  { id := fdGetParseInt fd "id"
    title := fdGetString fd "title"
    body := fdGetString fd "body"
    category := fdGetString fd "category"
    authorId := fdGetParseInt fd "authorId" }

/-- `updatePostAction`: parse, `updatePost`, `revalidateTag("posts")`,
`redirect("/t2-read-list/posts")`. -/
def updatePostAction (fd : FormData) (db : List PostRow) : Outcome PostRow :=
  match updatePostSchemaParse (updatePostRawOf fd) with
  | .error e => ⟨db, [], some e⟩
  | .ok v =>
      ⟨(updatePost db v).1,
       [.dbCall "updatePost", .revalidate "posts", .redirectTo "/t2-read-list/posts"],
       none⟩

/-- The raw-data object the delete actions build from the form. -/
def deleteRawOf (fd : FormData) : RawDeleteInput :=
  { id := fdGetParseInt fd "id" }

/-- `deletePostAction`: parse, `deletePost`, `revalidateTag("posts")`,
`redirect("/t2-read-list/posts")`. -/
def deletePostAction (fd : FormData) (db : List PostRow) : Outcome PostRow :=
  match deletePostSchemaParse (deleteRawOf fd) with
  | .error e => ⟨db, [], some e⟩
  | .ok v =>
      ⟨deletePost db v,
       [.dbCall "deletePost", .revalidate "posts", .redirectTo "/t2-read-list/posts"],
       none⟩

/-- The raw-data object `createProductAction` builds from the form. -/
def createProductRawOf (fd : FormData) : RawCreateProduct :=
  { name := fdGetString fd "name"
    category := fdGetString fd "category"
    price := fdGetParseFloat fd "price"
    stock := fdGetParseInt fd "stock" }

/-- `createProductAction`: parse, `createProduct`, `revalidateTag("products")`,
`redirect("/t2-read-list/products")`. -/
def createProductAction (fd : FormData) (db : List ProductRow) (newId : Int) (now : Nat) :
    Outcome ProductRow :=
  match createProductSchemaParse (createProductRawOf fd) with
  | .error e => ⟨db, [], some e⟩
  | .ok v =>
      ⟨(createProduct db v newId now).1,
       [.dbCall "createProduct", .revalidate "products", .redirectTo "/t2-read-list/products"],
       none⟩

/-- The raw-data object `updateProductAction` builds from the form. -/
def updateProductRawOf (fd : FormData) : RawUpdateProduct :=
  { id := fdGetParseInt fd "id"
    name := fdGetString fd "name"
    category := fdGetString fd "category"
    price := fdGetParseFloat fd "price"
    stock := fdGetParseInt fd "stock" }

/-- `updateProductAction`: parse, `updateProduct`, `revalidateTag("products")`,
`redirect("/t2-read-list/products")`. -/
def updateProductAction (fd : FormData) (db : List ProductRow) : Outcome ProductRow :=
  match updateProductSchemaParse (updateProductRawOf fd) with
  | .error e => ⟨db, [], some e⟩
  | .ok v =>
      ⟨(updateProduct db v).1,
       [.dbCall "updateProduct", .revalidate "products", .redirectTo "/t2-read-list/products"],
       none⟩

/-- `deleteProductAction`: parse, `deleteProduct`, `revalidateTag("products")`,
`redirect("/t2-read-list/products")`. -/
def deleteProductAction (fd : FormData) (db : List ProductRow) : Outcome ProductRow :=
  match deleteProductSchemaParse (deleteRawOf fd) with
  | .error e => ⟨db, [], some e⟩
  | .ok v =>
      ⟨(deleteProduct db v).1,
       [.dbCall "deleteProduct", .revalidate "products", .redirectTo "/t2-read-list/products"],
       none⟩

/-! Presentation layer: the `PostList` component. -/

/-- What one `PostCard` renders for a list item: the title, the shown
creation date, and the three links built from the item's id. -/
structure PostCardView where
  title : String
  shownDate : Nat
  detailHref : String
  editHref : String
  deleteHref : String
deriving DecidableEq, Repr

/-- The `PostCard` component applied to one list item. -/
def postCard (p : PostListItem) : PostCardView :=
  { title := p.title
    shownDate := p.createdAt
    detailHref := "/t2-read-list/posts/" ++ toString p.id
    editHref := "/t4-update/post/" ++ toString p.id
    deleteHref := "/t5-delete/post/" ++ toString p.id }

/-- What the `PostList` component renders: either the empty-state block or
the grid of cards. -/
inductive RenderedPostList where
  | emptyState (heading : String)
  | cards (cs : List PostCardView)
deriving DecidableEq, Repr

/-- The `PostList` component: the empty-state block when `posts.length === 0`,
otherwise one `PostCard` per element of `posts`, in order. -/
def PostList (posts : List PostListItem) : RenderedPostList :=
  if posts.length = 0 then .emptyState "読み物がありません"
  else .cards (posts.map postCard)

/-! Structure of the raw SQL statements, as written in the repository
functions (for the statement-shape claims). -/

/-- The four SQL statement kinds occurring in the repository layer. -/
inductive SqlKind where
  | insert
  | select
  | update
  | delete
deriving DecidableEq, Repr

/-- The two tables of the data-access layer. -/
inductive TableName where
  | posts
  | products
deriving DecidableEq, Repr

/-- Shape of one `prisma.$queryRaw` statement: its kind, its table, whether
it ends in `ORDER BY created_at DESC`, the DTO its rows are typed as
(`none` for an untyped `$queryRaw`), and whether the surrounding function
returns a value derived from the resulting rows. -/
structure QueryDescr where
  kind : SqlKind
  table : TableName
  orderByCreatedAtDesc : Bool
  typedAs : Option String
  returnsRows : Bool
deriving DecidableEq, Repr

/-- The statements each data-access function issues, read off the source
(one entry per `$queryRaw` call in the function body). -/
def dataAccessQueries : List (String × List QueryDescr) :=
  [("getPostList", [⟨.select, .posts, true, some "PostListItem", true⟩]),
   ("getPostById", [⟨.select, .posts, false, some "Post", true⟩]),
   ("createPost", [⟨.insert, .posts, false, some "Post", true⟩]),
   ("updatePost", [⟨.update, .posts, false, some "Post", true⟩]),
   ("deletePost", [⟨.delete, .posts, false, none, false⟩]),
   ("getProductList", [⟨.select, .products, true, some "ProductListItem", true⟩]),
   ("getProductById", [⟨.select, .products, false, some "Product", true⟩]),
   ("createProduct", [⟨.insert, .products, false, some "Product", true⟩]),
   ("updateProduct", [⟨.update, .products, false, some "Product", true⟩]),
   ("deleteProduct", [⟨.delete, .products, false, some "Product", true⟩])]

/-- The DTO whose rows each data-access function is declared to return. -/
def expectedDto (fn : String) : String :=
  if fn = "getPostList" then "PostListItem"
  else if fn = "getProductList" then "ProductListItem"
  else if fn = "getPostById" ∨ fn = "createPost" ∨ fn = "updatePost" ∨ fn = "deletePost" then "Post"
  else "Product"

/-! Conditions the schemas are claimed to check, stated independently of the
parse functions (field presence, length, numeric range). -/

/-- The claimed rule for a post title: a string of length 1..100. -/
def postTitleOk (r : RawCreatePost) : Prop :=
  ∃ s, r.title = Value.vStr s ∧ 1 ≤ s.length ∧ s.length ≤ 100

/-- The claimed rule for a post body: a string of length 1..5000. -/
def postBodyOk (r : RawCreatePost) : Prop :=
  ∃ s, r.body = Value.vStr s ∧ 1 ≤ s.length ∧ s.length ≤ 5000

/-- The claimed rule for a post category: a valid `PostCategory` value. -/
def postCategoryOk (r : RawCreatePost) : Prop :=
  ∃ s c, r.category = Value.vStr s ∧ PostCategory.fromString s = some c

/-- The claimed rule for an author id: a positive integer. -/
def postAuthorIdOk (r : RawCreatePost) : Prop :=
  ∃ q, r.authorId = Value.vNum q ∧ q.den = 1 ∧ 0 < q

/-- Field `f` of the raw create-post input violates its rule. -/
def postFieldViolated (r : RawCreatePost) (f : String) : Prop :=
  (f = "title" ∧ ¬ postTitleOk r) ∨ (f = "body" ∧ ¬ postBodyOk r) ∨
  (f = "category" ∧ ¬ postCategoryOk r) ∨ (f = "authorId" ∧ ¬ postAuthorIdOk r)

/-- The claimed rule for a product name: a string of length 1..100. -/
def productNameOk (r : RawCreateProduct) : Prop :=
  ∃ s, r.name = Value.vStr s ∧ 1 ≤ s.length ∧ s.length ≤ 100

/-- The claimed rule for a product category: a valid `ProductCategory` value. -/
def productCategoryOk (r : RawCreateProduct) : Prop :=
  ∃ s c, r.category = Value.vStr s ∧ ProductCategory.fromString s = some c

/-- The claimed rule for a price: a positive number. -/
def productPriceOk (r : RawCreateProduct) : Prop :=
  ∃ q, r.price = Value.vNum q ∧ 0 < q

/-- The claimed rule for a stock count: a non-negative integer. -/
def productStockOk (r : RawCreateProduct) : Prop :=
  ∃ q, r.stock = Value.vNum q ∧ q.den = 1 ∧ 0 ≤ q

/-! Helper lemmas: each zod field check succeeds exactly on the values its
declarative rule describes. -/

lemma zStringBetween_some_iff (mn mx : Nat) (v : Value) :
    (∃ s, zStringBetween mn mx v = some s) ↔
      ∃ s, v = Value.vStr s ∧ mn ≤ s.length ∧ s.length ≤ mx := by
  cases v with
  | vStr s =>
      by_cases h : mn ≤ s.length ∧ s.length ≤ mx
      · simp [zStringBetween, h]
      · simp [zStringBetween, h]
  | vNum q => simp [zStringBetween]
  | vNan => simp [zStringBetween]
  | vNull => simp [zStringBetween]

lemma zNumberIntPositive_some_iff (v : Value) :
    (∃ n, zNumberIntPositive v = some n) ↔
      ∃ q, v = Value.vNum q ∧ q.den = 1 ∧ 0 < q := by
  cases v with
  | vNum q =>
      by_cases h : q.den = 1 ∧ 0 < q
      · simp [zNumberIntPositive, h]
      · simp [zNumberIntPositive, h]
  | vStr s => simp [zNumberIntPositive]
  | vNan => simp [zNumberIntPositive]
  | vNull => simp [zNumberIntPositive]

lemma zNumberPositive_some_iff (v : Value) :
    (∃ p, zNumberPositive v = some p) ↔ ∃ q, v = Value.vNum q ∧ 0 < q := by
  cases v with
  | vNum q =>
      by_cases h : 0 < q
      · simp [zNumberPositive, h]
      · simp [zNumberPositive, h]
  | vStr s => simp [zNumberPositive]
  | vNan => simp [zNumberPositive]
  | vNull => simp [zNumberPositive]

lemma zNumberIntMin_some_iff (mn : Int) (v : Value) :
    (∃ n, zNumberIntMin mn v = some n) ↔
      ∃ q, v = Value.vNum q ∧ q.den = 1 ∧ mn ≤ q.num := by
  cases v with
  | vNum q =>
      by_cases h : q.den = 1 ∧ mn ≤ q.num
      · simp [zNumberIntMin, h]
      · simp [zNumberIntMin, h]
  | vStr s => simp [zNumberIntMin]
  | vNan => simp [zNumberIntMin]
  | vNull => simp [zNumberIntMin]

lemma zNativeEnumPostCategory_some_iff (v : Value) :
    (∃ c, zNativeEnumPostCategory v = some c) ↔
      ∃ s c, v = Value.vStr s ∧ PostCategory.fromString s = some c := by
  cases v <;> simp [zNativeEnumPostCategory]

lemma zNativeEnumProductCategory_some_iff (v : Value) :
    (∃ c, zNativeEnumProductCategory v = some c) ↔
      ∃ s c, v = Value.vStr s ∧ ProductCategory.fromString s = some c := by
  cases v <;> simp [zNativeEnumProductCategory]

/-- Claim C4: `createPostSchema.parse` succeeds exactly when the title is a
string of length 1..100, the body a string of length 1..5000, the category a
valid post category, and the author id a positive integer; otherwise it
fails, and the error names exactly the violated fields. -/
theorem createPostSchema_checks_presence_length_range (r : RawCreatePost) :
    ((∃ v, createPostSchemaParse r = .ok v) ↔
      postTitleOk r ∧ postBodyOk r ∧ postCategoryOk r ∧ postAuthorIdOk r) ∧
    (∀ e, createPostSchemaParse r = .error e →
      e ≠ [] ∧ ∀ f, (f ∈ e ↔ postFieldViolated r f)) := by
  have hT : postTitleOk r ↔ ∃ s, zStringBetween 1 100 r.title = some s :=
    (zStringBetween_some_iff 1 100 r.title).symm
  have hB : postBodyOk r ↔ ∃ s, zStringBetween 1 5000 r.body = some s :=
    (zStringBetween_some_iff 1 5000 r.body).symm
  have hC : postCategoryOk r ↔ ∃ c, zNativeEnumPostCategory r.category = some c :=
    (zNativeEnumPostCategory_some_iff r.category).symm
  have hA : postAuthorIdOk r ↔ ∃ n, zNumberIntPositive r.authorId = some n :=
    (zNumberIntPositive_some_iff r.authorId).symm
  rcases eT : zStringBetween 1 100 r.title with _ | t <;>
    rcases eB : zStringBetween 1 5000 r.body with _ | b <;>
    rcases eC : zNativeEnumPostCategory r.category with _ | c <;>
    rcases eA : zNumberIntPositive r.authorId with _ | a <;>
    simp_all [createPostSchemaParse, postFieldViolated, fieldErr]

/-- Concrete passing input for the post creation schema. -/
def rGoodC4 : RawCreatePost :=
  ⟨Value.vStr "t", Value.vStr "b", Value.vStr "Life", Value.vNum 2⟩

/-- Concrete failing input for the post creation schema (every field bad). -/
def rBadC4 : RawCreatePost :=
  ⟨Value.vNull, Value.vStr "", Value.vStr "X", Value.vNan⟩

/-- Witness for C4 at concrete inputs. -/
theorem createPostSchema_checks_witness :
    (postTitleOk rGoodC4 ∧ postBodyOk rGoodC4 ∧ postCategoryOk rGoodC4 ∧
      postAuthorIdOk rGoodC4) ∧
    ((["title", "body", "category", "authorId"] : List String) ≠ [] ∧
      ∀ f, (f ∈ (["title", "body", "category", "authorId"] : List String) ↔
        postFieldViolated rBadC4 f)) :=
  ⟨(createPostSchema_checks_presence_length_range rGoodC4).1.mp
      ⟨⟨"t", "b", .Life, 2⟩, rfl⟩,
   (createPostSchema_checks_presence_length_range rBadC4).2
      ["title", "body", "category", "authorId"] rfl⟩

/-- Claim C5: `createProductSchema.parse` succeeds exactly when the name is a
string of length 1..100, the category a valid product category, the price a
positive number, and the stock a non-negative integer; otherwise it fails. -/
theorem createProductSchema_checks_presence_length_range (r : RawCreateProduct) :
    ((∃ v, createProductSchemaParse r = .ok v) ↔
      productNameOk r ∧ productCategoryOk r ∧ productPriceOk r ∧ productStockOk r) ∧
    (¬ (productNameOk r ∧ productCategoryOk r ∧ productPriceOk r ∧ productStockOk r) →
      ∃ e, createProductSchemaParse r = .error e) := by
  have hN : productNameOk r ↔ ∃ s, zStringBetween 1 100 r.name = some s :=
    (zStringBetween_some_iff 1 100 r.name).symm
  have hC : productCategoryOk r ↔ ∃ c, zNativeEnumProductCategory r.category = some c :=
    (zNativeEnumProductCategory_some_iff r.category).symm
  have hP : productPriceOk r ↔ ∃ p, zNumberPositive r.price = some p :=
    (zNumberPositive_some_iff r.price).symm
  have hS : productStockOk r ↔ ∃ n, zNumberIntMin 0 r.stock = some n := by
    rw [zNumberIntMin_some_iff 0 r.stock]
    unfold productStockOk
    constructor
    · rintro ⟨q, hq, h1, h2⟩
      exact ⟨q, hq, h1, by exact_mod_cast (Rat.num_nonneg).mpr h2⟩
    · rintro ⟨q, hq, h1, h2⟩
      exact ⟨q, hq, h1, Rat.num_nonneg.mp h2⟩
  rcases eN : zStringBetween 1 100 r.name with _ | n <;>
    rcases eC : zNativeEnumProductCategory r.category with _ | c <;>
    rcases eP : zNumberPositive r.price with _ | p <;>
    rcases eS : zNumberIntMin 0 r.stock with _ | s <;>
    simp_all [createProductSchemaParse, fieldErr]

/-- Concrete passing input for the product creation schema. -/
def rGoodC5 : RawCreateProduct :=
  ⟨Value.vStr "Lamp", Value.vStr "Home", Value.vNum 3, Value.vNum 4⟩

/-- Concrete failing input for the product creation schema. -/
def rBadC5 : RawCreateProduct :=
  ⟨Value.vStr "Lamp", Value.vStr "Home", Value.vNum 0, Value.vNum 4⟩

/-- Witness for C5 at concrete inputs. -/
theorem createProductSchema_checks_witness :
    (productNameOk rGoodC5 ∧ productCategoryOk rGoodC5 ∧ productPriceOk rGoodC5 ∧
      productStockOk rGoodC5) ∧
    ∃ e, createProductSchemaParse rBadC5 = .error e :=
  ⟨(createProductSchema_checks_presence_length_range rGoodC5).1.mp
      ⟨⟨"Lamp", .Home, 3, 4⟩, by decide⟩,
   (createProductSchema_checks_presence_length_range rBadC5).2
      (fun h => by
        rcases h.2.2.1 with ⟨q, hq, hq0⟩
        cases hq
        exact absurd hq0 (by norm_num))⟩

/-- Claim C1: every action, on a form whose parsed raw data passes its
schema, performs exactly one data mutation (its one repository call), then
invalidates its one cache tag (`posts` for post actions, `products` for
product actions), then redirects to the corresponding list page, in that
order, and throws nothing. -/
theorem actions_mutate_revalidate_redirect_in_order :
    (∀ (fd : FormData) (db : List PostRow) (newId : Int) (now : Nat) v,
      createPostSchemaParse (createPostRawOf fd) = .ok v →
        (createPostAction fd db newId now).events =
          [Event.dbCall "createPost", Event.revalidate "posts",
            Event.redirectTo "/t2-read-list/posts"] ∧
        (createPostAction fd db newId now).thrown = none) ∧
    (∀ (fd : FormData) (db : List PostRow) v,
      updatePostSchemaParse (updatePostRawOf fd) = .ok v →
        (updatePostAction fd db).events =
          [Event.dbCall "updatePost", Event.revalidate "posts",
            Event.redirectTo "/t2-read-list/posts"] ∧
        (updatePostAction fd db).thrown = none) ∧
    (∀ (fd : FormData) (db : List PostRow) v,
      deletePostSchemaParse (deleteRawOf fd) = .ok v →
        (deletePostAction fd db).events =
          [Event.dbCall "deletePost", Event.revalidate "posts",
            Event.redirectTo "/t2-read-list/posts"] ∧
        (deletePostAction fd db).thrown = none) ∧
    (∀ (fd : FormData) (db : List ProductRow) (newId : Int) (now : Nat) v,
      createProductSchemaParse (createProductRawOf fd) = .ok v →
        (createProductAction fd db newId now).events =
          [Event.dbCall "createProduct", Event.revalidate "products",
            Event.redirectTo "/t2-read-list/products"] ∧
        (createProductAction fd db newId now).thrown = none) ∧
    (∀ (fd : FormData) (db : List ProductRow) v,
      updateProductSchemaParse (updateProductRawOf fd) = .ok v →
        (updateProductAction fd db).events =
          [Event.dbCall "updateProduct", Event.revalidate "products",
            Event.redirectTo "/t2-read-list/products"] ∧
        (updateProductAction fd db).thrown = none) ∧
    (∀ (fd : FormData) (db : List ProductRow) v,
      deleteProductSchemaParse (deleteRawOf fd) = .ok v →
        (deleteProductAction fd db).events =
          [Event.dbCall "deleteProduct", Event.revalidate "products",
            Event.redirectTo "/t2-read-list/products"] ∧
        (deleteProductAction fd db).thrown = none) := by
  refine ⟨?_, ?_, ?_, ?_, ?_, ?_⟩
  · intro fd db newId now v h
    simp [createPostAction, h]
  · intro fd db v h
    simp [updatePostAction, h]
  · intro fd db v h
    simp [deletePostAction, h]
  · intro fd db newId now v h
    simp [createProductAction, h]
  · intro fd db v h
    simp [updateProductAction, h]
  · intro fd db v h
    simp [deleteProductAction, h]

/-- A concrete post form that passes every post schema. -/
def fdPostC1 : FormData := fun k =>
  if k = "id" then some "2"
  else if k = "title" then some "Hello"
  else if k = "body" then some "World"
  else if k = "category" then some "Tech"
  else if k = "authorId" then some "1"
  else none

/-- A concrete product form that passes every product schema. -/
def fdProdC1 : FormData := fun k =>
  if k = "id" then some "2"
  else if k = "name" then some "Lamp"
  else if k = "category" then some "Home"
  else if k = "price" then some "4"
  else if k = "stock" then some "6"
  else none

/-- Witness for C1: the six actions run on concrete passing forms. -/
theorem actions_mutate_revalidate_redirect_witness :
    ((createPostAction fdPostC1 [] 5 0).events =
        [Event.dbCall "createPost", Event.revalidate "posts",
          Event.redirectTo "/t2-read-list/posts"] ∧
      (createPostAction fdPostC1 [] 5 0).thrown = none) ∧
    ((updatePostAction fdPostC1 []).events =
        [Event.dbCall "updatePost", Event.revalidate "posts",
          Event.redirectTo "/t2-read-list/posts"] ∧
      (updatePostAction fdPostC1 []).thrown = none) ∧
    ((deletePostAction fdPostC1 []).events =
        [Event.dbCall "deletePost", Event.revalidate "posts",
          Event.redirectTo "/t2-read-list/posts"] ∧
      (deletePostAction fdPostC1 []).thrown = none) ∧
    ((createProductAction fdProdC1 [] 5 0).events =
        [Event.dbCall "createProduct", Event.revalidate "products",
          Event.redirectTo "/t2-read-list/products"] ∧
      (createProductAction fdProdC1 [] 5 0).thrown = none) ∧
    ((updateProductAction fdProdC1 []).events =
        [Event.dbCall "updateProduct", Event.revalidate "products",
          Event.redirectTo "/t2-read-list/products"] ∧
      (updateProductAction fdProdC1 []).thrown = none) ∧
    ((deleteProductAction fdProdC1 []).events =
        [Event.dbCall "deleteProduct", Event.revalidate "products",
          Event.redirectTo "/t2-read-list/products"] ∧
      (deleteProductAction fdProdC1 []).thrown = none) := by
  have hraw : createProductRawOf fdProdC1 =
      ⟨Value.vStr "Lamp", Value.vStr "Home", Value.vNum 4, Value.vNum 6⟩ := by
    simp [createProductRawOf, fdProdC1, fdGetString, fdGetParseFloat, fdGetParseInt,
      jsParseFloat, jsParseFloatDigits, jsParseInt, jsParseIntDigits, digitsToNat]
  have hraw2 : updateProductRawOf fdProdC1 =
      ⟨Value.vNum 2, Value.vStr "Lamp", Value.vStr "Home", Value.vNum 4, Value.vNum 6⟩ := by
    simp [updateProductRawOf, fdProdC1, fdGetString, fdGetParseFloat, fdGetParseInt,
      jsParseFloat, jsParseFloatDigits, jsParseInt, jsParseIntDigits, digitsToNat]
  refine ⟨?_, ?_, ?_, ?_, ?_, ?_⟩
  · exact actions_mutate_revalidate_redirect_in_order.1 fdPostC1 [] 5 0
      ⟨"Hello", "World", .Tech, 1⟩ (by decide)
  · exact actions_mutate_revalidate_redirect_in_order.2.1 fdPostC1 []
      ⟨2, "Hello", "World", .Tech, 1⟩ (by decide)
  · exact actions_mutate_revalidate_redirect_in_order.2.2.1 fdPostC1 []
      ⟨2⟩ (by decide)
  · exact actions_mutate_revalidate_redirect_in_order.2.2.2.1 fdProdC1 [] 5 0
      ⟨"Lamp", .Home, 4, 6⟩ (by rw [hraw]; decide)
  · exact actions_mutate_revalidate_redirect_in_order.2.2.2.2.1 fdProdC1 []
      ⟨2, "Lamp", .Home, 4, 6⟩ (by rw [hraw2]; decide)
  · exact actions_mutate_revalidate_redirect_in_order.2.2.2.2.2 fdProdC1 []
      ⟨2⟩ (by decide)

/-- Claim C2: every action, on a form whose parsed raw data fails its
schema, throws the validation error, performs no repository call
(no event at all), and leaves the table unchanged. -/
theorem actions_reject_invalid_before_data_access :
    (∀ (fd : FormData) (db : List PostRow) (newId : Int) (now : Nat) e,
      createPostSchemaParse (createPostRawOf fd) = .error e →
        (createPostAction fd db newId now).db = db ∧
        (createPostAction fd db newId now).events = [] ∧
        (createPostAction fd db newId now).thrown = some e) ∧
    (∀ (fd : FormData) (db : List PostRow) e,
      updatePostSchemaParse (updatePostRawOf fd) = .error e →
        (updatePostAction fd db).db = db ∧
        (updatePostAction fd db).events = [] ∧
        (updatePostAction fd db).thrown = some e) ∧
    (∀ (fd : FormData) (db : List PostRow) e,
      deletePostSchemaParse (deleteRawOf fd) = .error e →
        (deletePostAction fd db).db = db ∧
        (deletePostAction fd db).events = [] ∧
        (deletePostAction fd db).thrown = some e) ∧
    (∀ (fd : FormData) (db : List ProductRow) (newId : Int) (now : Nat) e,
      createProductSchemaParse (createProductRawOf fd) = .error e →
        (createProductAction fd db newId now).db = db ∧
        (createProductAction fd db newId now).events = [] ∧
        (createProductAction fd db newId now).thrown = some e) ∧
    (∀ (fd : FormData) (db : List ProductRow) e,
      updateProductSchemaParse (updateProductRawOf fd) = .error e →
        (updateProductAction fd db).db = db ∧
        (updateProductAction fd db).events = [] ∧
        (updateProductAction fd db).thrown = some e) ∧
    (∀ (fd : FormData) (db : List ProductRow) e,
      deleteProductSchemaParse (deleteRawOf fd) = .error e →
        (deleteProductAction fd db).db = db ∧
        (deleteProductAction fd db).events = [] ∧
        (deleteProductAction fd db).thrown = some e) := by
  refine ⟨?_, ?_, ?_, ?_, ?_, ?_⟩
  · intro fd db newId now e h
    simp [createPostAction, h]
  · intro fd db e h
    simp [updatePostAction, h]
  · intro fd db e h
    simp [deletePostAction, h]
  · intro fd db newId now e h
    simp [createProductAction, h]
  · intro fd db e h
    simp [updateProductAction, h]
  · intro fd db e h
    simp [deleteProductAction, h]

/-- The empty form: every field missing, so every schema rejects it. -/
def fdEmptyC2 : FormData := fun _ => none

/-- Witness for C2: the six actions run on the empty form. -/
theorem actions_reject_invalid_witness :
    ((createPostAction fdEmptyC2 [] 5 0).db = [] ∧
      (createPostAction fdEmptyC2 [] 5 0).events = [] ∧
      (createPostAction fdEmptyC2 [] 5 0).thrown =
        some ["title", "body", "category", "authorId"]) ∧
    ((updatePostAction fdEmptyC2 []).db = [] ∧
      (updatePostAction fdEmptyC2 []).events = [] ∧
      (updatePostAction fdEmptyC2 []).thrown =
        some ["id", "title", "body", "category", "authorId"]) ∧
    ((deletePostAction fdEmptyC2 []).db = [] ∧
      (deletePostAction fdEmptyC2 []).events = [] ∧
      (deletePostAction fdEmptyC2 []).thrown = some ["id"]) ∧
    ((createProductAction fdEmptyC2 [] 5 0).db = [] ∧
      (createProductAction fdEmptyC2 [] 5 0).events = [] ∧
      (createProductAction fdEmptyC2 [] 5 0).thrown =
        some ["name", "category", "price", "stock"]) ∧
    ((updateProductAction fdEmptyC2 []).db = [] ∧
      (updateProductAction fdEmptyC2 []).events = [] ∧
      (updateProductAction fdEmptyC2 []).thrown =
        some ["id", "name", "category", "price", "stock"]) ∧
    ((deleteProductAction fdEmptyC2 []).db = [] ∧
      (deleteProductAction fdEmptyC2 []).events = [] ∧
      (deleteProductAction fdEmptyC2 []).thrown = some ["id"]) :=
  ⟨actions_reject_invalid_before_data_access.1 fdEmptyC2 [] 5 0
      ["title", "body", "category", "authorId"] (by decide),
   actions_reject_invalid_before_data_access.2.1 fdEmptyC2 []
      ["id", "title", "body", "category", "authorId"] (by decide),
   actions_reject_invalid_before_data_access.2.2.1 fdEmptyC2 [] ["id"] (by decide),
   actions_reject_invalid_before_data_access.2.2.2.1 fdEmptyC2 [] 5 0
      ["name", "category", "price", "stock"] (by decide),
   actions_reject_invalid_before_data_access.2.2.2.2.1 fdEmptyC2 []
      ["id", "name", "category", "price", "stock"] (by decide),
   actions_reject_invalid_before_data_access.2.2.2.2.2 fdEmptyC2 [] ["id"] (by decide)⟩

/-- What claim C3 asserts of one data-access entry: one statement, against
one of the two tables, whose rows are typed as the entry's DTO and returned
by the function. -/
def c3ClaimHolds (e : String × List QueryDescr) : Bool :=
  (e.2.length == 1) && e.2.all fun q =>
    (q.table == TableName.posts || q.table == TableName.products) &&
    (q.typedAs == some (expectedDto e.1)) && q.returnsRows

/-- Counterexample to C3 as stated: `deletePost` issues its one DELETE with
an untyped `$queryRaw` and returns `void`, not rows typed as the DTO. -/
theorem dataAccess_typed_rows_cex :
    ("deletePost",
      [{ kind := SqlKind.delete, table := TableName.posts,
         orderByCreatedAtDesc := false, typedAs := none, returnsRows := false }])
      ∈ dataAccessQueries ∧
    c3ClaimHolds ("deletePost",
      [{ kind := SqlKind.delete, table := TableName.posts,
         orderByCreatedAtDesc := false, typedAs := none, returnsRows := false }]) = false ∧
    dataAccessQueries.all c3ClaimHolds = false := by decide

/-- What holds of every data-access entry: one single INSERT/SELECT/UPDATE/
DELETE statement (the kind field is one of the four by construction) against
one of the two tables; every function except `deletePost` types the rows as
its DTO and returns them, while `deletePost` runs untyped and returns
nothing. -/
def c3AmendedHolds (e : String × List QueryDescr) : Bool :=
  (e.2.length == 1) && e.2.all fun q =>
    (q.table == TableName.posts || q.table == TableName.products) &&
    (if e.1 == "deletePost" then (q.typedAs == (none : Option String)) && (q.returnsRows == false)
     else (q.typedAs == some (expectedDto e.1)) && q.returnsRows)

/-- Claim C3 as amended: every data-access function issues exactly one
statement against exactly one of the two tables, and all but `deletePost`
return the resulting rows typed as the corresponding DTO. -/
theorem dataAccess_one_statement_each :
    dataAccessQueries.all c3AmendedHolds = true := by decide

/-- What claim C6 asserts of one data-access entry: its statements carry no
`ORDER BY created_at DESC` clause. -/
def c6ClaimHolds (e : String × List QueryDescr) : Bool :=
  e.2.all fun q => q.orderByCreatedAtDesc == false

/-- Counterexample to C6 as stated: both list queries end in `ORDER BY
created_at DESC`, and on a concrete two-row table `getPostList` returns the
rows reordered to descending `created_at`. -/
theorem listQueries_unordered_cex :
    getPostList
        [{ id := 1, title := "a", body := "b", category := PostCategory.Tech,
           authorId := 1, createdAt := 1 },
         { id := 2, title := "c", body := "d", category := PostCategory.Life,
           authorId := 1, createdAt := 9 }] =
      [{ id := 2, title := "c", createdAt := 9 },
       { id := 1, title := "a", createdAt := 1 }] ∧
    dataAccessQueries.all c6ClaimHolds = false := by decide

/-- Each list-returning entry orders by `created_at DESC`. -/
def listFnOrdered (e : String × List QueryDescr) : Bool :=
  if e.1 == "getPostList" || e.1 == "getProductList" then
    e.2.all fun q => q.orderByCreatedAtDesc
  else true

/-- Claim C6 as amended: the list-returning data-access functions do
guarantee an order — their statements sort by `created_at DESC`, and on any
table state the returned rows are exactly the projected rows, sorted by
descending `createdAt`. -/
theorem listQueries_ordered_by_created_at_desc :
    dataAccessQueries.all listFnOrdered = true ∧
    (∀ db : List PostRow,
      ((getPostList db).map PostListItem.createdAt).Sorted (fun a b => b ≤ a) ∧
      (getPostList db).Perm (db.map PostRow.toListItem)) ∧
    (∀ db : List ProductRow,
      ((getProductList db).map ProductListItem.createdAt).Sorted (fun a b => b ≤ a) ∧
      (getProductList db).Perm (db.map ProductRow.toListItem)) := by
  haveI : IsTotal PostRow (fun a b => b.createdAt ≤ a.createdAt) :=
    ⟨fun a b => le_total b.createdAt a.createdAt⟩
  haveI : IsTrans PostRow (fun a b => b.createdAt ≤ a.createdAt) :=
    ⟨fun _ _ _ hab hbc => le_trans hbc hab⟩
  haveI : IsTotal ProductRow (fun a b => b.createdAt ≤ a.createdAt) :=
    ⟨fun a b => le_total b.createdAt a.createdAt⟩
  haveI : IsTrans ProductRow (fun a b => b.createdAt ≤ a.createdAt) :=
    ⟨fun _ _ _ hab hbc => le_trans hbc hab⟩
  refine ⟨by decide, fun db => ⟨?_, ?_⟩, fun db => ⟨?_, ?_⟩⟩
  · have hs := List.sorted_insertionSort (fun a b : PostRow => b.createdAt ≤ a.createdAt) db
    simp only [getPostList, List.map_map, List.Sorted, List.pairwise_map]
    exact hs
  · exact (List.perm_insertionSort _ db).map PostRow.toListItem
  · have hs := List.sorted_insertionSort (fun a b : ProductRow => b.createdAt ≤ a.createdAt) db
    simp only [getProductList, List.map_map, List.Sorted, List.pairwise_map]
    exact hs
  · exact (List.perm_insertionSort _ db).map ProductRow.toListItem

/-- Claim C7: `PostList` renders the empty-state block exactly when the
list is empty, and otherwise renders one `PostCard` per list element, in
the order of the list. -/
theorem postList_one_card_per_item (posts : List PostListItem) :
    (PostList posts = RenderedPostList.emptyState "読み物がありません" ↔ posts = []) ∧
    (posts ≠ [] → PostList posts = RenderedPostList.cards (posts.map postCard) ∧
      ∀ cs, PostList posts = RenderedPostList.cards cs → cs.length = posts.length) := by
  cases posts with
  | nil =>
      refine ⟨by simp [PostList], fun h => absurd rfl h⟩
  | cons x xs =>
      refine ⟨by simp [PostList], fun _ => ⟨by simp [PostList], ?_⟩⟩
      intro cs hcs
      simp only [PostList, List.length_cons, Nat.succ_ne_zero, if_false] at hcs
      cases hcs
      simp

/-- Witness for C7 at an empty and at a one-element list. -/
theorem postList_one_card_witness :
    (PostList [] = RenderedPostList.emptyState "読み物がありません") ∧
    (PostList [{ id := 1, title := "a", createdAt := 0 }] =
        RenderedPostList.cards ([{ id := 1, title := "a", createdAt := 0 }].map postCard) ∧
      ∀ cs, PostList [{ id := 1, title := "a", createdAt := 0 }] =
        RenderedPostList.cards cs → cs.length = 1) :=
  ⟨(postList_one_card_per_item []).1.mpr rfl,
   (postList_one_card_per_item [{ id := 1, title := "a", createdAt := 0 }]).2
      (by simp)⟩

/-! List lemmas about `WHERE id = ...` filters followed by `[0]`. -/

lemma head?_filter_eq_none_iff {α : Type} (p : α → Bool) (l : List α) :
    (l.filter p).head? = none ↔ ∀ a ∈ l, ¬ p a := by
  induction l with
  | nil => simp
  | cons x xs ih =>
      by_cases h : p x
      · simp [List.filter_cons, h]
      · simp [List.filter_cons, h, ih]

lemma head?_filter_eq_some {α : Type} (p : α → Bool) (l : List α) (a : α)
    (h : (l.filter p).head? = some a) : a ∈ l ∧ p a := by
  have ha : a ∈ l.filter p := by
    cases hl : l.filter p with
    | nil => rw [hl] at h; cases h
    | cons y ys =>
        rw [hl] at h
        simp only [List.head?_cons, Option.some.injEq] at h
        subst h
        exact List.mem_cons_self _ _
  exact List.mem_filter.mp ha

lemma head?_filter_key_unique {α : Type} (key : α → Int) (l : List α) (i : Int)
    (hnd : (l.map key).Nodup) (a : α) (ha : a ∈ l) (hk : key a = i) :
    (l.filter fun x => key x == i).head? = some a := by
  induction l with
  | nil => cases ha
  | cons x xs ih =>
      rw [List.map_cons, List.nodup_cons] at hnd
      rcases List.mem_cons.mp ha with rfl | hmem
      · have hx : (key a == i) = true := by simp [hk]
        simp [List.filter_cons, hx]
      · have hxk : ¬ (key x == i) = true := by
          simp only [beq_iff_eq]
          intro hxi
          exact hnd.1 ((hxi.trans hk.symm) ▸ List.mem_map_of_mem key hmem)
        simp only [List.filter_cons, hxk, if_false]
        exact ih hnd.2 hmem

lemma filter_eq_nil_of_none {α : Type} (p : α → Bool) (l : List α)
    (h : ∀ a ∈ l, ¬ p a) : l.filter p = [] := by
  induction l with
  | nil => rfl
  | cons x xs ih =>
      rw [List.filter_cons, if_neg (h x (List.mem_cons_self x xs))]
      exact ih fun a ha => h a (List.mem_cons_of_mem x ha)

lemma map_if_unmatched {α : Type} (p : α → Bool) (f : α → α) (l : List α)
    (h : ∀ a ∈ l, ¬ p a) : (l.map fun a => if p a then f a else a) = l := by
  induction l with
  | nil => rfl
  | cons x xs ih =>
      simp only [List.map_cons]
      rw [if_neg (h x (List.mem_cons_self x xs)),
        ih fun a ha => h a (List.mem_cons_of_mem x ha)]

lemma head?_isSome_of_ne_nil {α : Type} (l : List α) (h : l ≠ []) :
    l.head?.isSome = true := by
  cases l with
  | nil => exact absurd rfl h
  | cons x xs => rfl

/-- Claim C8: the by-id lookups return `null` exactly when no row has the
id; a returned row is in the table and has the id; and under the primary-key
invariant (no duplicate ids) the row with the id is the one returned.  The
lookups are total functions into `Option`: a missing id yields `none`
rather than an error. -/
theorem getById_none_iff_absent (pdb : List PostRow) (i : Int)
    (qdb : List ProductRow) (j : Int) :
    (getPostById pdb i = none ↔ ∀ r ∈ pdb, r.id ≠ i) ∧
    (∀ r, getPostById pdb i = some r → r ∈ pdb ∧ r.id = i) ∧
    ((pdb.map PostRow.id).Nodup → ∀ r ∈ pdb, r.id = i → getPostById pdb i = some r) ∧
    (getProductById qdb j = none ↔ ∀ r ∈ qdb, r.id ≠ j) ∧
    (∀ r, getProductById qdb j = some r → r ∈ qdb ∧ r.id = j) ∧
    ((qdb.map ProductRow.id).Nodup → ∀ r ∈ qdb, r.id = j → getProductById qdb j = some r) := by
  refine ⟨?_, ?_, ?_, ?_, ?_, ?_⟩
  · simp [getPostById, head?_filter_eq_none_iff]
  · intro r h
    simp only [getPostById] at h
    have := head?_filter_eq_some _ _ _ h
    exact ⟨this.1, by simpa using this.2⟩
  · intro hnd r hr hrk
    simp only [getPostById]
    exact head?_filter_key_unique PostRow.id pdb i hnd r hr hrk
  · simp [getProductById, head?_filter_eq_none_iff]
  · intro r h
    simp only [getProductById] at h
    have := head?_filter_eq_some _ _ _ h
    exact ⟨this.1, by simpa using this.2⟩
  · intro hnd r hr hrk
    simp only [getProductById]
    exact head?_filter_key_unique ProductRow.id qdb j hnd r hr hrk

/-- Concrete post row for the C8 witness. -/
def rowPostC8 : PostRow :=
  { id := 1, title := "a", body := "b", category := PostCategory.Tech,
    authorId := 1, createdAt := 0 }

/-- Concrete product row for the C8 witness. -/
def rowProdC8 : ProductRow :=
  { id := 1, name := "p", category := ProductCategory.Home,
    price := 4, stock := 6, createdAt := 0 }

/-- Witness for C8: hit and miss lookups on concrete one-row tables. -/
theorem getById_none_iff_absent_witness :
    getPostById [rowPostC8] 1 = some rowPostC8 ∧
    getProductById [rowProdC8] 1 = some rowProdC8 ∧
    getPostById [rowPostC8] 2 = none :=
  ⟨(getById_none_iff_absent [rowPostC8] 1 [rowProdC8] 1).2.2.1
      (by decide) rowPostC8 (by decide) rfl,
   (getById_none_iff_absent [rowPostC8] 1 [rowProdC8] 1).2.2.2.2.2
      (by decide) rowProdC8 (by decide) rfl,
   (getById_none_iff_absent [rowPostC8] 2 [rowProdC8] 1).1.mpr (by decide)⟩

/-- Claim C9: when the validated input's id matches no row, `updatePost` and
`updateProduct` modify no row and their unguarded `[0]` access yields no
value, despite the declared `Post` / `Product` return types; when a row with
the id exists, the access does yield a row. -/
theorem update_unguarded_first_row (pdb : List PostRow) (pd : UpdatePostInput)
    (qdb : List ProductRow) (qd : UpdateProductInput) :
    ((∀ r ∈ pdb, r.id ≠ pd.id) →
      (updatePost pdb pd).1 = pdb ∧ (updatePost pdb pd).2 = none) ∧
    ((∃ r ∈ pdb, r.id = pd.id) → ((updatePost pdb pd).2).isSome = true) ∧
    ((∀ r ∈ qdb, r.id ≠ qd.id) →
      (updateProduct qdb qd).1 = qdb ∧ (updateProduct qdb qd).2 = none) ∧
    ((∃ r ∈ qdb, r.id = qd.id) → ((updateProduct qdb qd).2).isSome = true) := by
  refine ⟨?_, ?_, ?_, ?_⟩
  · intro h
    have hnp : ∀ r ∈ pdb, ¬ (r.id == pd.id) = true := by
      intro r hr
      simpa using h r hr
    constructor
    · simpa only [updatePost] using map_if_unmatched _ _ pdb hnp
    · simp only [updatePost, filter_eq_nil_of_none _ pdb hnp, List.map_nil,
        List.head?_nil]
  · rintro ⟨r, hr, hk⟩
    have hmem : r ∈ pdb.filter fun x => x.id == pd.id :=
      List.mem_filter.mpr ⟨hr, by simp [hk]⟩
    simp only [updatePost]
    exact head?_isSome_of_ne_nil _ (by
      intro hnil
      rw [List.map_eq_nil_iff] at hnil
      exact List.ne_nil_of_mem hmem hnil)
  · intro h
    have hnp : ∀ r ∈ qdb, ¬ (r.id == qd.id) = true := by
      intro r hr
      simpa using h r hr
    constructor
    · simpa only [updateProduct] using map_if_unmatched _ _ qdb hnp
    · simp only [updateProduct, filter_eq_nil_of_none _ qdb hnp, List.map_nil,
        List.head?_nil]
  · rintro ⟨r, hr, hk⟩
    have hmem : r ∈ qdb.filter fun x => x.id == qd.id :=
      List.mem_filter.mpr ⟨hr, by simp [hk]⟩
    simp only [updateProduct]
    exact head?_isSome_of_ne_nil _ (by
      intro hnil
      rw [List.map_eq_nil_iff] at hnil
      exact List.ne_nil_of_mem hmem hnil)

/-- Concrete update inputs whose id (2) matches no row of the one-row
tables with id 1, and a posts table for the hit case. -/
def pdC9 : UpdatePostInput := ⟨2, "t", "b", PostCategory.Life, 1⟩

/-- Concrete product update input with unmatched id 2. -/
def qdC9 : UpdateProductInput := ⟨2, "n", ProductCategory.Books, 4, 6⟩

/-- Concrete one-row posts table (id 1) for the C9 witness. -/
def pdbC9 : List PostRow :=
  [{ id := 1, title := "x", body := "y", category := PostCategory.Tech,
     authorId := 1, createdAt := 0 }]

/-- Concrete one-row products table (id 1) for the C9 witness. -/
def qdbC9 : List ProductRow :=
  [{ id := 1, name := "m", category := ProductCategory.Home,
     price := 4, stock := 6, createdAt := 0 }]

/-- Witness for C9: missing id leaves the tables unchanged and returns
nothing; a matching id returns a row. -/
theorem update_unguarded_first_row_witness :
    ((updatePost pdbC9 pdC9).1 = pdbC9 ∧ (updatePost pdbC9 pdC9).2 = none) ∧
    ((updateProduct qdbC9 qdC9).1 = qdbC9 ∧ (updateProduct qdbC9 qdC9).2 = none) ∧
    ((updatePost pdbC9 { pdC9 with id := 1 }).2).isSome = true :=
  ⟨(update_unguarded_first_row pdbC9 pdC9 qdbC9 qdC9).1 (by decide),
   (update_unguarded_first_row pdbC9 pdC9 qdbC9 qdC9).2.2.1 (by decide),
   (update_unguarded_first_row pdbC9 { pdC9 with id := 1 } qdbC9 qdC9).2.1
      ⟨{ id := 1, title := "x", body := "y", category := PostCategory.Tech,
         authorId := 1, createdAt := 0 }, by decide, by decide⟩⟩

/-- Claim C10: `createPost` and `createProduct` return the row they insert,
whose non-generated fields equal the validated input's fields, and the new
table is the old one with exactly that row appended. -/
theorem create_returns_inserted_row (pdb : List PostRow) (v : CreatePostInput)
    (qdb : List ProductRow) (w : CreateProductInput) (newId : Int) (now : Nat) :
    ((createPost pdb v newId now).2.title = v.title ∧
      (createPost pdb v newId now).2.body = v.body ∧
      (createPost pdb v newId now).2.category = v.category ∧
      (createPost pdb v newId now).2.authorId = v.authorId ∧
      (createPost pdb v newId now).1 = pdb ++ [(createPost pdb v newId now).2]) ∧
    ((createProduct qdb w newId now).2.name = w.name ∧
      (createProduct qdb w newId now).2.category = w.category ∧
      (createProduct qdb w newId now).2.price = w.price ∧
      (createProduct qdb w newId now).2.stock = w.stock ∧
      (createProduct qdb w newId now).1 = qdb ++ [(createProduct qdb w newId now).2]) :=
  ⟨⟨rfl, rfl, rfl, rfl, rfl⟩, ⟨rfl, rfl, rfl, rfl, rfl⟩⟩

end Practice
